import Mathlib

/-
Shallow embedding of
`src/server/apps/microservices/src/processors/metadata-extraction.processor.ts`
(the immich metadata-extraction processor).

Modelling conventions:
* JS nullable values (`undefined` / `null`) are `Option`.
* JS truthiness is explicit: `0` is a falsy number, `""` is a falsy string.
* JS `number` is modelled as `ℚ` where only finite values arise, and as
  `JsNum` (with `NaN` / infinities) where `parseInt` / division can produce
  non-finite values.
* External collaborators (exiftool, ffprobe, sharp, fs.statSync, the asset
  and exif repositories, the geocoder) are modelled by an environment `Env`
  of call results; each handler is a function into a monad `M` that threads
  the list of performed external queries/writes and the JS exception state.
-/

/-- A thrown JS error, identified by its message text. -/
abbrev JsError := String

/-- Truthiness of a JS nullable string: `undefined`, `null` and `""` are falsy. -/
def jsTruthyOS : Option String → Bool
  | some s => s != ""
  | none => false

/-- Truthiness of a JS nullable integer number: `undefined`, `null` and `0` are falsy. -/
def jsTruthyOI : Option Int → Bool
  | some v => v != 0
  | none => false

/-- Truthiness of a JS nullable rational number: `undefined`, `null` and `0` are falsy. -/
def jsTruthyOQ : Option ℚ → Bool
  | some v => v != 0
  | none => false

/-- JS `a || b` on nullable strings: `a` when truthy (non-empty), else `b`. -/
def jsOrS : Option String → Option String → Option String
  | some s, b => if s = "" then b else some s
  | none, b => b

/-- JS `a || b` on nullable integer numbers: `a` when truthy (non-zero), else `b`. -/
def jsOrI : Option Int → Option Int → Option Int
  | some v, b => if v = 0 then b else some v
  | none, b => b

/-- JS `a || b` on nullable rational numbers: `a` when truthy (non-zero), else `b`. -/
def jsOrQ : Option ℚ → Option ℚ → Option ℚ
  | some v, b => if v = 0 then b else some v
  | none, b => b

/-- JS `a ?? b`: `a` unless it is `null`/`undefined`. -/
def jsNullish {α : Type} : Option α → α → α
  | some v, _ => v
  | none, b => b

/-- Decimal digit test, `[0-9]` of the regexes. -/
def isDig (c : Char) : Bool := '0' ≤ c && c ≤ '9'

/-- Value of a run of decimal digits. -/
def digitsToNat (l : List Char) : Nat :=
  l.foldl (fun a c => 10 * a + (c.toNat - 48)) 0

/-- Hexadecimal digit test (for `parseInt`'s `0x` form). -/
def isHexDig (c : Char) : Bool :=
  isDig c || ('a' ≤ c && c ≤ 'f') || ('A' ≤ c && c ≤ 'F')

/-- Value of one hexadecimal digit. -/
def hexVal (c : Char) : Nat :=
  if isDig c then c.toNat - 48
  else if 'a' ≤ c && c ≤ 'f' then c.toNat - 87
  else c.toNat - 55

/-- Value of a run of hexadecimal digits. -/
def hexToNat (l : List Char) : Nat :=
  l.foldl (fun a c => 16 * a + hexVal c) 0

/-- A JS `number` as produced by `parseInt` / `parseFloat` / division:
either `NaN`, an infinity, or a finite value (modelled exactly as `ℚ`;
decimal literals of the source are represented by the same decimal value). -/
inductive JsNum where
  | nan
  | posInf
  | negInf
  | num (q : ℚ)
deriving DecidableEq

/-- Digits (with JS `parseInt`'s `0x`/`0X` hexadecimal form) after an optional
sign has been consumed; `NaN` when no digit is present. -/
def jsParseIntDigits (l : List Char) (neg : Bool) : JsNum :=
  match l with
  | '0' :: c :: rest =>
    if c = 'x' || c = 'X' then
      let ds := rest.takeWhile isHexDig
      if ds.isEmpty then JsNum.nan
      else JsNum.num ((if neg then -1 else 1) * ((hexToNat ds : ℤ) : ℚ))
    else
      let ds := ('0' :: c :: rest).takeWhile isDig
      if ds.isEmpty then JsNum.nan
      else JsNum.num ((if neg then -1 else 1) * ((digitsToNat ds : ℤ) : ℚ))
  | _ =>
    let ds := l.takeWhile isDig
    if ds.isEmpty then JsNum.nan
    else JsNum.num ((if neg then -1 else 1) * ((digitsToNat ds : ℤ) : ℚ))

/-- JS `parseInt(s)` with no explicit radix (or radix `0`): skip leading
whitespace, optional sign, then leading decimal (or `0x` hexadecimal) digits;
`NaN` when no digit follows.  Trailing non-digit characters are ignored. -/
def jsParseInt (l : List Char) : JsNum :=
  let l := l.dropWhile (fun c => c = ' ' || c = '\t' || c = '\n' || c = '\r')
  match l with
  | '+' :: rest => jsParseIntDigits rest false
  | '-' :: rest => jsParseIntDigits rest true
  | _ => jsParseIntDigits l false

/-- JS `parseFloat(s)` on decimal (non-exponent) forms: skip leading
whitespace, optional sign, integer digits, optional `.` plus fraction digits;
`NaN` when no digit is found.  (Exponent forms and the `Infinity` literal do
not occur in the inputs this processor feeds to `parseFloat`.) -/
def jsParseFloat (l : List Char) : JsNum :=
  let l := l.dropWhile (fun c => c = ' ' || c = '\t' || c = '\n' || c = '\r')
  let signAndRest : Bool × List Char :=
    match l with
    | '+' :: r => (false, r)
    | '-' :: r => (true, r)
    | _ => (false, l)
  let neg := signAndRest.1
  let l2 := signAndRest.2
  let ip := l2.takeWhile isDig
  let r1 := l2.dropWhile isDig
  let fp :=
    match r1 with
    | '.' :: r2 => r2.takeWhile isDig
    | _ => []
  if ip.isEmpty && fp.isEmpty then JsNum.nan
  else
    let mag : ℚ := (digitsToNat ip : ℚ) + (digitsToNat fp : ℚ) / (10 ^ fp.length : ℚ)
    JsNum.num (if neg then -mag else mag)

/-- JS `parseFloat` restricted to the shape of the location-regex captures
(`[+-][0-9]+\.[0-9]+`), where the result is always finite: returned directly
as the exact decimal rational. -/
def parseFloatCapture (s : String) : ℚ :=
  match s.toList with
  | c :: rest =>
    let ip := rest.takeWhile isDig
    let fp := ((rest.dropWhile isDig).drop 1).takeWhile isDig
    let mag : ℚ := (digitsToNat ip : ℚ) + (digitsToNat fp : ℚ) / (10 ^ fp.length : ℚ)
    if c = '-' then -mag else mag
  | [] => 0

/-- JS `a / b` on numbers. -/
def jsDiv : JsNum → JsNum → JsNum
  | JsNum.nan, _ => JsNum.nan
  | _, JsNum.nan => JsNum.nan
  | JsNum.posInf, JsNum.posInf => JsNum.nan
  | JsNum.posInf, JsNum.negInf => JsNum.nan
  | JsNum.negInf, JsNum.posInf => JsNum.nan
  | JsNum.negInf, JsNum.negInf => JsNum.nan
  | JsNum.posInf, JsNum.num b => if b < 0 then JsNum.negInf else JsNum.posInf
  | JsNum.negInf, JsNum.num b => if b < 0 then JsNum.posInf else JsNum.negInf
  | JsNum.num _, JsNum.posInf => JsNum.num 0
  | JsNum.num _, JsNum.negInf => JsNum.num 0
  | JsNum.num a, JsNum.num b =>
    if b = 0 then (if a = 0 then JsNum.nan else if 0 < a then JsNum.posInf else JsNum.negInf)
    else JsNum.num (a / b)

/-- JS `Math.round`: round half toward positive infinity, i.e. `⌊x + 1/2⌋`. -/
def jsMathRound : JsNum → JsNum
  | JsNum.num q => JsNum.num ((⌊q + 1/2⌋ : ℤ) : ℚ)
  | x => x

/-- JS `s.padStart(n, c)`. -/
def padStart (s : String) (n : Nat) (c : Char) : String :=
  if n ≤ s.length then s else String.mk (List.replicate (n - s.length) c) ++ s

/-- Truncation of a finite JS number toward zero, as performed by
`parseInt(x.toString(), 0)` on values whose decimal rendering is positional
(|x| < 1e21, which covers every duration this processor handles). -/
def jsTrunc (d : ℚ) : Int := if 0 ≤ d then ⌊d⌋ else ⌈d⌉

/-- JS `String.prototype.split` with a single-character separator. -/
def splitOnChar (c : Char) : List Char → List (List Char)
  | [] => [[]]
  | x :: xs =>
    let r := splitOnChar c xs
    if x = c then [] :: r
    else
      match r with
      | h :: t => (x :: h) :: t
      | [] => [[x]]

/-
The two location regexes of `extractVideoMetadata`:

  Encoding A: `([+-][0-9]+\.[0-9]+)([+-][0-9]+\.[0-9]+)\/$`
  Encoding B: `([+-][0-9]+\.[0-9]+)([+-][0-9]+\.[0-9]+)([+-][0-9]+\.[0-9]+)\/$`

`String.prototype.match` scans for the leftmost start position at which the
pattern matches.  Inside one start position the JS backtracking search is
deterministic here: every `[0-9]+` run is followed in the pattern by `\.`,
`[+-]` or `\/`, none of which matches a digit, so a shorter-than-maximal
digit run can never extend a failed match; `takeWhile isDig` is therefore an
exact model of each `[0-9]+`.
-/

/-- One `([+-][0-9]+\.[0-9]+)` group at the head of the input: returns the
captured characters and the rest of the input. -/
def signedDecimal : List Char → Option (List Char × List Char)
  | c :: rest =>
    if c = '+' || c = '-' then
      let ds := rest.takeWhile isDig
      let r1 := rest.dropWhile isDig
      if ds.isEmpty then none
      else
        match r1 with
        | '.' :: r2 =>
          let fs := r2.takeWhile isDig
          let r3 := r2.dropWhile isDig
          if fs.isEmpty then none
          else some (c :: ds ++ '.' :: fs, r3)
        | _ => none
    else none
  | [] => none

/-- Encoding A anchored at one start position: two signed decimals, `/`,
end of string.  Returns the two captures. -/
def matchAAt (l : List Char) : Option (String × String) :=
  match signedDecimal l with
  | some (g1, r1) =>
    match signedDecimal r1 with
    | some (g2, r2) => if r2 = ['/'] then some (g1.asString, g2.asString) else none
    | none => none
  | none => none

/-- Encoding A (`location` tag regex): leftmost start position wins. -/
def matchA : List Char → Option (String × String)
  | [] => none
  | c :: rest =>
    match matchAAt (c :: rest) with
    | some g => some g
    | none => matchA rest

/-- Encoding B anchored at one start position: three signed decimals, `/`,
end of string.  Returns the three captures (the third is the altitude). -/
def matchBAt (l : List Char) : Option (String × String × String) :=
  match signedDecimal l with
  | some (g1, r1) =>
    match signedDecimal r1 with
    | some (g2, r2) =>
      match signedDecimal r2 with
      | some (g3, r3) => if r3 = ['/'] then some (g1.asString, g2.asString, g3.asString) else none
      | none => none
    | none => none
  | none => none

/-- Encoding B (`com.apple.quicktime.location.ISO6709` tag regex):
leftmost start position wins. -/
def matchB : List Char → Option (String × String × String)
  | [] => none
  | c :: rest =>
    match matchBAt (c :: rest) with
    | some g => some g
    | none => matchB rest

/-- `path.parse(p).base`: the part of the path after the last separator. -/
def pathBasename (p : String) : String :=
  (p.toList.foldl (fun acc c => if c = '/' then [] else acc ++ [c]) []).asString

/-- `path.parse(p).name`: the basename with the extension (the part from the
last `.`, unless that dot is the basename's first character) removed. -/
def pathParseName (p : String) : String :=
  let b := (pathBasename p).toList
  match b.reverse.dropWhile (fun c => c ≠ '.') with
  | [] => b.asString
  | _ :: rest => if rest = [] then b.asString else rest.reverse.asString

/-- `AssetType` of `@app/infra` (the two members this processor uses). -/
inductive AssetType where
  | IMAGE
  | VIDEO
deriving DecidableEq

/-- An opaque `Date` value: either `new Date(s)` from a string, or the
result of `ExifDateTime.toDate()` (kept abstract, tagged by an id). -/
inductive JsDate where
  | parsed (s : String)
  | fromExif (tag : Nat)
deriving DecidableEq

/-- An opaque `ExifDateTime` object of `exiftool-vendored`. -/
structure ExifDateTime where
  tag : Nat
deriving DecidableEq

/-- `exifDate.toDate()`. -/
def ExifDateTime.toDate (d : ExifDateTime) : JsDate := JsDate.fromExif d.tag

/-- A date-valued exif tag: `string | ExifDateTime`. -/
abbrev ExifDateValue := String ⊕ ExifDateTime

/-- The fields of `AssetEntity` this processor reads or patches. -/
structure AssetEntity where
  id : String
  originalPath : String
  fileCreatedAt : String
  fileModifiedAt : String
  isVisible : Bool
  livePhotoVideoId : Option String := none
  duration : Option String := none
deriving DecidableEq

/-- The embedded-tag bag (`ImmichTags extends Tags`), restricted to the tags
this processor reads.  Numeric tags carry their JS number value. -/
structure ImmichTags where
  DateTimeOriginal : Option ExifDateValue := none
  CreateDate : Option ExifDateValue := none
  ModifyDate : Option ExifDateValue := none
  Make : Option String := none
  Model : Option String := none
  ExifImageHeight : Option Int := none
  ImageHeight : Option Int := none
  ExifImageWidth : Option Int := none
  ImageWidth : Option Int := none
  ExposureTime : Option String := none
  Orientation : Option Int := none
  LensModel : Option String := none
  FNumber : Option ℚ := none
  FocalLength : Option String := none
  ISO : Option Int := none
  GPSLatitude : Option ℚ := none
  GPSLongitude : Option ℚ := none
  MediaGroupUUID : Option String := none
  ContentIdentifier : Option String := none
deriving DecidableEq

/-- An administrative code entry of the gazetteer (`AdminCode`). -/
structure AdminCode where
  name : String
deriving DecidableEq

/-- A `GeoData` answer of the geocoder (the fields the processor reads).
The `admin1Code` / `admin2Code` fields are modelled in their object form. -/
structure GeoData where
  name : String
  countryCode : String
  admin1Code : Option AdminCode := none
  admin2Code : Option AdminCode := none
deriving DecidableEq

/-- The result of `sharp(path).metadata()` (the fields read here). -/
structure SharpMeta where
  height : Option Int := none
  width : Option Int := none
  orientation : Option Int := none
deriving DecidableEq

/-- The container-level tag bag of `data.format.tags`.  Field names stand for
the JS keys `com.apple.quicktime.creationdate`, `creation_time`, `location`
and `com.apple.quicktime.location.ISO6709`. -/
structure VideoTags where
  appleCreationDate : Option String := none
  creationTime : Option String := none
  location : Option String := none
  appleLocationISO6709 : Option String := none
deriving DecidableEq

/-- One entry of `data.streams`.  `rotation` may be a string or a number;
`r_frame_rate` is the rate string. -/
structure FfStream where
  codec_type : String
  width : Option Int := none
  height : Option Int := none
  rotation : Option (String ⊕ Int) := none
  r_frame_rate : Option String := none
deriving DecidableEq

/-- `data.format` of an ffprobe answer. -/
structure FfprobeFormat where
  duration : Option ℚ := none
  size : Option Int := none
  tags : Option VideoTags := none
deriving DecidableEq

/-- A full ffprobe answer. -/
structure FfprobeData where
  format : FfprobeFormat
  streams : List FfStream := []
deriving DecidableEq

/-- The `ExifEntity` record built and upserted by the processor. -/
structure ExifEntity where
  assetId : Option String := none
  description : Option String := none
  imageName : Option String := none
  fileSizeInByte : Option Int := none
  make : Option String := none
  model : Option String := none
  exifImageHeight : Option Int := none
  exifImageWidth : Option Int := none
  exposureTime : Option String := none
  orientation : Option String := none
  dateTimeOriginal : Option JsDate := none
  modifyDate : Option JsDate := none
  lensModel : Option String := none
  fNumber : Option ℚ := none
  focalLength : Option JsNum := none
  iso : Option Int := none
  latitude : Option ℚ := none
  longitude : Option ℚ := none
  city : Option String := none
  state : Option String := none
  country : Option String := none
  livePhotoCID : Option String := none
  fps : Option JsNum := none
deriving DecidableEq

/-- A partial update passed to `assetRepository.save`: `id` plus the patched
fields (outer `Option` = key present in the partial; the serialized
`fileCreatedAt` string is recorded for image saves, see `JsDate.toISOString`). -/
structure AssetPatch where
  id : String
  fileCreatedAt : Option (Option String) := none
  livePhotoVideoId : Option String := none
  isVisible : Option Bool := none
  duration : Option (Option String) := none
deriving DecidableEq

/-- `date.toISOString()`, modelled as an injective encoding of the opaque
date value (no claim depends on the concrete serialized text). -/
def JsDate.toISOString : JsDate → String
  | JsDate.parsed s => "date(" ++ s ++ ")"
  | JsDate.fromExif n => "exifdt(" ++ toString n ++ ")"

/-- The payload of a `IReverseGeocodingJob`. -/
structure ReverseGeocodingJob where
  assetId : String
  latitude : ℚ
  longitude : ℚ
deriving DecidableEq

/-- Observable external interactions of one handler run. -/
inductive Effect where
  | log (msg : String)
  | findLivePhoto (cid : String) (excludeId : String) (ty : AssetType)
  | saveAsset (p : AssetPatch)
  | upsertExif (e : ExifEntity)
  | updateExif (assetId : String) (city : String) (state : String) (country : Option String)
  | sharpInvoked
deriving DecidableEq

/-- Results of the external collaborators for one handler invocation. -/
structure Env where
  isGeocodeInitialized : Bool
  exiftoolRead : Except JsError ImmichTags
  statSync : Except JsError Int
  sharpMetadata : Except JsError SharpMeta
  ffprobe : Except JsError FfprobeData
  findLivePhotoMatch : String → String → AssetType → Except JsError (Option AssetEntity)
  saveResult : AssetPatch → Except JsError Unit
  upsertResult : ExifEntity → Except JsError Unit
  updateResult : Except JsError Unit
  geocoderLookup : Except JsError GeoData
  getName : String → Option String

/-- The handler monad: a state of already-performed effects, plus the JS
exception state (`Except.error` = an exception is propagating). -/
def M (α : Type) : Type := List Effect → Except JsError α × List Effect

instance : Monad M where
  pure a := fun s => (Except.ok a, s)
  bind m f := fun s =>
    match m s with
    | (Except.ok a, s2) => f a s2
    | (Except.error e, s2) => (Except.error e, s2)

/-- Run a handler from an empty effect trace. -/
def runM {α : Type} (m : M α) : Except JsError α × List Effect := m []

/-- Record an effect. -/
def emit (e : Effect) : M Unit := fun s => (Except.ok (), s ++ [e])

/-- Throw a JS exception. -/
def throwM {α : Type} (e : JsError) : M α := fun s => (Except.error e, s)

/-- `await` on a collaborator result: the value, or a propagating exception. -/
def liftE {α : Type} (x : Except JsError α) : M α := fun s => (x, s)

/-- JS `try { m } catch (e) { h e }`. -/
def tryCatchM {α : Type} (m : M α) (h : JsError → M α) : M α := fun s =>
  match m s with
  | (Except.ok a, s2) => (Except.ok a, s2)
  | (Except.error e, s2) => h e s2

/-- The local `exifToDate` helper of `extractExifInfo`: falsy input
(`undefined` or `""`) gives `null`; a string is parsed with `new Date`;
an `ExifDateTime` is converted with `.toDate()`. -/
def exifToDate : Option ExifDateValue → Option JsDate
  | none => none
  | some (Sum.inl s) => if s = "" then none else some (JsDate.parsed s)
  | some (Sum.inr d) => some d.toDate

/-- `exifData?.DateTimeOriginal ?? exifData?.CreateDate ?? asset.fileCreatedAt`. -/
def createdDateCandidate (exifData : Option ImmichTags) (asset : AssetEntity) : ExifDateValue :=
  jsNullish (exifData.bind ImmichTags.DateTimeOriginal)
    (jsNullish (exifData.bind ImmichTags.CreateDate) (Sum.inl asset.fileCreatedAt))

/-- `exifData?.ModifyDate ?? asset.fileModifiedAt`. -/
def modifiedDateCandidate (exifData : Option ImmichTags) (asset : AssetEntity) : ExifDateValue :=
  jsNullish (exifData.bind ImmichTags.ModifyDate) (Sum.inl asset.fileModifiedAt)

/-- The resolved `fileCreatedAt` of `extractExifInfo`. -/
def resolvedFileCreatedAt (exifData : Option ImmichTags) (asset : AssetEntity) : Option JsDate :=
  exifToDate (some (createdDateCandidate exifData asset))

/-- The resolved `fileModifiedAt` of `extractExifInfo`. -/
def resolvedFileModifiedAt (exifData : Option ImmichTags) (asset : AssetEntity) : Option JsDate :=
  exifToDate (some (modifiedDateCandidate exifData asset))

/-- `exifData?.ExifImageHeight || exifData?.ImageHeight || null`. -/
def tagImageHeight (exifData : Option ImmichTags) : Option Int :=
  jsOrI (exifData.bind ImmichTags.ExifImageHeight)
    (jsOrI (exifData.bind ImmichTags.ImageHeight) none)

/-- `exifData?.ExifImageWidth || exifData?.ImageWidth || null`. -/
def tagImageWidth (exifData : Option ImmichTags) : Option Int :=
  jsOrI (exifData.bind ImmichTags.ExifImageWidth)
    (jsOrI (exifData.bind ImmichTags.ImageWidth) none)

/-- `exifData?.Orientation?.toString() || null`. -/
def tagOrientation (exifData : Option ImmichTags) : Option String :=
  jsOrS ((exifData.bind ImmichTags.Orientation).map (fun i => toString i)) none

/-- The `newExif` record as built by `extractExifInfo` before pairing,
geocoding and the sharp fallback (lines 158-176 of the processor). -/
def buildImageExif (exifData : Option ImmichTags) (asset : AssetEntity)
    (fileName : String) (fileSizeInBytes : Int) : ExifEntity :=
  { assetId := some asset.id
    imageName := some (pathParseName fileName)
    fileSizeInByte := some fileSizeInBytes
    make := jsOrS (exifData.bind ImmichTags.Make) none
    model := jsOrS (exifData.bind ImmichTags.Model) none
    exifImageHeight := tagImageHeight exifData
    exifImageWidth := tagImageWidth exifData
    exposureTime := jsOrS (exifData.bind ImmichTags.ExposureTime) none
    orientation := tagOrientation exifData
    dateTimeOriginal := resolvedFileCreatedAt exifData asset
    modifyDate := resolvedFileModifiedAt exifData asset
    lensModel := jsOrS (exifData.bind ImmichTags.LensModel) none
    fNumber := jsOrQ (exifData.bind ImmichTags.FNumber) none
    focalLength :=
      if jsTruthyOS (exifData.bind ImmichTags.FocalLength) then
        some (jsParseFloat ((exifData.bind ImmichTags.FocalLength).getD "").toList)
      else none
    iso := jsOrI (exifData.bind ImmichTags.ISO) none
    latitude := jsOrQ (exifData.bind ImmichTags.GPSLatitude) none
    longitude := jsOrQ (exifData.bind ImmichTags.GPSLongitude) none
    livePhotoCID := jsOrS (exifData.bind ImmichTags.MediaGroupUUID) none }

/-- `extractDuration` after its `parseInt`: the pure integer-and-string part.
`Math.floor` on an exact quotient of integers with positive divisor is floor
division (`Int.fdiv`). -/
def extractDurationInt (videoDurationInSecond : Int) : String :=
  let hours : Int := Int.fdiv videoDurationInSecond 3600
  let minutes : Int := Int.fdiv (videoDurationInSecond - hours * 3600) 60
  let seconds : Int := videoDurationInSecond - hours * 3600 - minutes * 60
  toString hours ++ ":" ++ padStart (toString minutes) 2 '0' ++ ":"
    ++ padStart (toString seconds) 2 '0' ++ ".000000"

/-- `extractDuration(duration)` of the processor (lines 366-374). -/
def extractDuration (duration : ℚ) : String :=
  extractDurationInt (jsTrunc duration)

/-- The `H:MM:SS.000000` format as the spec states it: hours unpadded,
minutes and seconds the usual modulo-60 components zero-padded to width 2,
fixed `.000000` suffix. -/
def specDurationFormat (n : Int) : String :=
  toString (n / 3600) ++ ":" ++ padStart (toString ((n / 60) % 60)) 2 '0' ++ ":"
    ++ padStart (toString (n % 60)) 2 '0' ++ ".000000"

/-- The orientation written by the stream scan: the rotation string as-is, a
numeric rotation stringified, `null` when absent. -/
def rotationToOrientation : Option (String ⊕ Int) → Option String
  | some (Sum.inl s) => some s
  | some (Sum.inr n) => some (toString n)
  | none => none

/-- The fps assignment of the stream scan: only when the rate string is
truthy and splits on `/` into exactly two parts. -/
def setFps (e : ExifEntity) (rate : Option String) : ExifEntity :=
  match rate with
  | some r =>
    if r = "" then e
    else
      match splitOnChar '/' r.toList with
      | [p0, p1] =>
        { e with fps := some (jsMathRound (jsDiv (jsParseInt p0) (jsParseInt p1))) }
      | _ => e
  | none => e

/-- One iteration of the `for (const stream of data.streams)` loop
(lines 334-355): streams whose `codec_type` is not `"video"` are skipped. -/
def processStream (e : ExifEntity) (s : FfStream) : ExifEntity :=
  if s.codec_type = "video" then
    setFps
      { e with
        exifImageWidth := jsOrI s.width none
        exifImageHeight := jsOrI s.height none
        orientation := rotationToOrientation s.rotation }
      s.r_frame_rate
  else e

/-- The whole stream scan. -/
def streamScan (e : ExifEntity) (streams : List FfStream) : ExifEntity :=
  streams.foldl processStream e

/-- The Encoding-A branch of the video GPS step: match the `location` text
against regex A and, on a match (whose JS match array then has length 3),
write both coordinates. -/
def gpsApplyA (text : String) (e : ExifEntity) : ExifEntity :=
  match matchA text.toList with
  | some (g1, g2) =>
    { e with latitude := some (parseFloatCapture g1), longitude := some (parseFloatCapture g2) }
  | none => e

/-- The Encoding-B branch: match the ISO6709 text against regex B and, on a
match (JS match array length 4), write both coordinates; the third capture
(altitude) is discarded. -/
def gpsApplyB (text : String) (e : ExifEntity) : ExifEntity :=
  match matchB text.toList with
  | some (g1, g2, _) =>
    { e with latitude := some (parseFloatCapture g1), longitude := some (parseFloatCapture g2) }
  | none => e

/-- The GPS step of `extractVideoMetadata` (lines 306-324): regex A against a
truthy `location` tag, else regex B against a truthy
`com.apple.quicktime.location.ISO6709` tag, else nothing. -/
def videoGpsStep (videoTags : Option VideoTags) (e : ExifEntity) : ExifEntity :=
  if jsTruthyOS (videoTags.bind VideoTags.location) then
    gpsApplyA ((videoTags.bind VideoTags.location).getD "") e
  else if jsTruthyOS (videoTags.bind VideoTags.appleLocationISO6709) then
    gpsApplyB ((videoTags.bind VideoTags.appleLocationISO6709).getD "") e
  else e

/-- The video creation-time resolution (lines 258-272): the Apple creation
date tag, else `creation_time`, else the asset's stored value. -/
def videoFileCreatedAt (videoTags : Option VideoTags) (asset : AssetEntity) : String :=
  match videoTags with
  | some vt =>
    if jsTruthyOS vt.appleCreationDate then vt.appleCreationDate.getD ""
    else if jsTruthyOS vt.creationTime then vt.creationTime.getD ""
    else asset.fileCreatedAt
  | none => asset.fileCreatedAt

/-- The video duration resolution (lines 258-263): format a truthy probed
duration, else keep the asset's stored duration string. -/
def videoDurationString (format : FfprobeFormat) (asset : AssetEntity) : Option String :=
  if jsTruthyOQ format.duration then some (extractDuration (format.duration.getD 0))
  else asset.duration

/-- The base `newExif` record of `extractVideoMetadata` (lines 279-292). -/
def buildVideoExif (asset : AssetEntity) (fileName : String) (format : FfprobeFormat)
    (fileCreatedAt : String) (exifData : Option ImmichTags) : ExifEntity :=
  { assetId := some asset.id
    description := some ""
    imageName := jsOrS (some (pathParseName fileName)) none
    fileSizeInByte := jsOrI format.size none
    dateTimeOriginal := if fileCreatedAt = "" then none else some (JsDate.parsed fileCreatedAt)
    modifyDate := none
    latitude := none
    longitude := none
    city := none
    state := none
    country := none
    fps := none
    livePhotoCID := jsOrS (exifData.bind ImmichTags.ContentIdentifier) none }

/-- `exiftool.read(path).catch(e => { warn; return null })` (shared by both
extractors). -/
def readExifCatch (env : Env) (originalPath : String) : M (Option ImmichTags) :=
  match env.exiftoolRead with
  | Except.ok t => pure (some t)
  | Except.error e => do
    emit (Effect.log ("The exifData parsing failed due to: " ++ e ++ " on file " ++ originalPath))
    pure none

/-- `await this.assetRepository.save(patch)`: the write is recorded when the
repository accepts it, else the rejection propagates. -/
def doSave (env : Env) (p : AssetPatch) : M Unit :=
  match env.saveResult p with
  | Except.ok _ => emit (Effect.saveAsset p)
  | Except.error e => throwM e

/-- `await this.exifRepository.upsert(newExif, { conflictPaths: ['assetId'] })`. -/
def doUpsert (env : Env) (e : ExifEntity) : M Unit :=
  match env.upsertResult e with
  | Except.ok _ => emit (Effect.upsertExif e)
  | Except.error er => throwM er

/-- `await this.exifRepository.update({ assetId }, { city, state, country })`. -/
def doUpdate (env : Env) (assetId : String) (city : String) (state : String)
    (country : Option String) : M Unit :=
  match env.updateResult with
  | Except.ok _ => emit (Effect.updateExif assetId city state country)
  | Except.error e => throwM e

/-- `await this.assetRepository.findLivePhotoMatch(cid, excludeId, type)`. -/
def doFind (env : Env) (cid : String) (excludeId : String) (ty : AssetType) :
    M (Option AssetEntity) := do
  emit (Effect.findLivePhoto cid excludeId ty)
  liftE (env.findLivePhotoMatch cid excludeId ty)

/-- `reverseGeocodeExif(latitude, longitude)` (lines 103-132): look the point
up, name the country from its ISO code, compose the state string from the
admin-2 and admin-1 codes.  Returns `(country, state, city)`.  The geocoder
arguments are part of the call shape; the modelled lookup answer is the
environment's. -/
def reverseGeocodeExifM (env : Env) (_latitude _longitude : ℚ) :
    M (Option String × String × String) := do
  let geoCodeInfo ← liftE env.geocoderLookup
  let country := env.getName geoCodeInfo.countryCode
  let city := geoCodeInfo.name
  let state := ""
  let state :=
    match geoCodeInfo.admin2Code with
    | some a2 => state ++ a2.name
    | none => state
  let state :=
    match geoCodeInfo.admin1Code with
    | some a1 =>
      (state ++ (match geoCodeInfo.admin2Code with
        | some a2 => if a2.name ≠ "" then ", " else ""
        | none => "")) ++ a1.name
    | none => state
  pure (country, state, city)

/-- The reverse-geocoding enrichment block shared verbatim by both extractors
(lines 201-206 and 327-332): only when the index readiness flag is set and
both coordinates are truthy. -/
def geocodeEnrichStep (env : Env) (e : ExifEntity) : M ExifEntity :=
  if env.isGeocodeInitialized && jsTruthyOQ e.latitude && jsTruthyOQ e.longitude then do
    let r ← reverseGeocodeExifM env (e.latitude.getD 0) (e.longitude.getD 0)
    pure { e with country := r.1, state := some r.2.1, city := some r.2.2 }
  else pure e

/-- The live-pairing block of `extractExifInfo` (lines 183-193): guarded by a
truthy content identifier AND a falsy existing `livePhotoVideoId`; on a match
the image's `livePhotoVideoId` is set to the motion asset and the motion
asset is hidden. -/
def imagePairingStep (env : Env) (asset : AssetEntity) (cid : Option String) : M Unit :=
  if jsTruthyOS cid && !jsTruthyOS asset.livePhotoVideoId then do
    let motionAsset ← doFind env (cid.getD "") asset.id AssetType.VIDEO
    match motionAsset with
    | some m => do
      doSave env { id := asset.id, livePhotoVideoId := some m.id }
      doSave env { id := m.id, isVisible := some false }
    | none => pure ()
  else pure ()

/-- The live-pairing block of `extractVideoMetadata` (lines 294-304): guarded
only by a truthy content identifier; on a match the PHOTO asset's
`livePhotoVideoId` is set to this video and THIS video is hidden. -/
def videoPairingStep (env : Env) (asset : AssetEntity) (cid : Option String) : M Unit :=
  if jsTruthyOS cid then do
    let photoAsset ← doFind env (cid.getD "") asset.id AssetType.IMAGE
    match photoAsset with
    | some p => do
      doSave env { id := p.id, livePhotoVideoId := some asset.id }
      doSave env { id := asset.id, isVisible := some false }
    | none => pure ()
  else pure ()

/-- The three strictly-`null`-guarded refills inside the sharp raster-decode
fallback of `extractExifInfo` (lines 215-225): each field is overwritten only
when it is `=== null`. -/
def sharpFill (metadata : SharpMeta) (e : ExifEntity) : ExifEntity :=
  let e1 := if e.exifImageHeight = none then
      { e with exifImageHeight := jsOrI metadata.height none } else e
  let e2 := if e1.exifImageWidth = none then
      { e1 with exifImageWidth := jsOrI metadata.width none } else e1
  if e2.orientation = none then
    { e2 with orientation := metadata.orientation.map (fun n => toString n) } else e2

def sharpFallbackStep (env : Env) (e : ExifEntity) : M ExifEntity :=
  if !jsTruthyOI e.exifImageHeight || !jsTruthyOI e.exifImageWidth
      || !jsTruthyOS e.orientation then do
    emit Effect.sharpInvoked
    let metadata ← liftE env.sharpMetadata
    pure (sharpFill metadata e)
  else pure e

/-- The body of the `EXIF_EXTRACTION` handler (inside its `try`). -/
def extractExifInfoBody (env : Env) (asset : AssetEntity) (fileName : String) : M Unit := do
  let exifData ← readExifCatch env asset.originalPath
  let fileCreatedAt := resolvedFileCreatedAt exifData asset
  let _fileModifiedAt := resolvedFileModifiedAt exifData asset
  let fileSizeInBytes ← liftE env.statSync
  let newExif := buildImageExif exifData asset fileName fileSizeInBytes
  doSave env { id := asset.id, fileCreatedAt := some (fileCreatedAt.map JsDate.toISOString) }
  imagePairingStep env asset newExif.livePhotoCID
  let newExif ← geocodeEnrichStep env newExif
  let newExif ← sharpFallbackStep env newExif
  doUpsert env newExif

/-- `extractExifInfo` (lines 134-232): the whole body is wrapped in
`try/catch`; the catch only logs. -/
def extractExifInfo (env : Env) (asset : AssetEntity) (fileName : String) : M Unit :=
  tryCatchM (extractExifInfoBody env asset fileName)
    (fun e => emit (Effect.log ("Error extracting EXIF " ++ e)))

/-- `reverseGeocoding` (lines 234-241): NO try/catch around the lookup and
the repository update. -/
def reverseGeocoding (env : Env) (j : ReverseGeocodingJob) : M Unit :=
  if env.isGeocodeInitialized then do
    let r ← reverseGeocodeExifM env j.latitude j.longitude
    doUpdate env j.assetId r.2.2 r.2.1 r.1
  else pure ()

/-- The body of the `EXTRACT_VIDEO_METADATA` handler (inside its `try`). -/
def extractVideoMetadataBody (env : Env) (asset : AssetEntity) (fileName : String) : M Unit := do
  let data ← liftE env.ffprobe
  let durationString := videoDurationString data.format asset
  let fileCreatedAt := videoFileCreatedAt data.format.tags asset
  let exifData ← readExifCatch env asset.originalPath
  let newExif := buildVideoExif asset fileName data.format fileCreatedAt exifData
  videoPairingStep env asset newExif.livePhotoCID
  let newExif := videoGpsStep data.format.tags newExif
  let newExif ← geocodeEnrichStep env newExif
  let newExif := streamScan newExif data.streams
  doUpsert env newExif
  doSave env { id := asset.id, duration := some durationString,
               fileCreatedAt := some (some fileCreatedAt) }

/-- `extractVideoMetadata` (lines 243-364): skips invisible assets before the
`try`; the catch only logs. -/
def extractVideoMetadata (env : Env) (asset : AssetEntity) (fileName : String) : M Unit :=
  if !asset.isVisible then pure ()
  else
    tryCatchM (extractVideoMetadataBody env asset fileName)
      (fun e => emit (Effect.log ("Error in video metadata extraction " ++ e)))

@[simp] theorem M_pure_apply {α : Type} (a : α) (s : List Effect) :
    (pure a : M α) s = (Except.ok a, s) := rfl

@[simp] theorem M_bind_apply {α β : Type} (m : M α) (f : α → M β) (s : List Effect) :
    (m >>= f) s =
      match m s with
      | (Except.ok a, s2) => f a s2
      | (Except.error e, s2) => (Except.error e, s2) := rfl

@[simp] theorem emit_apply (e : Effect) (s : List Effect) :
    emit e s = (Except.ok (), s ++ [e]) := rfl

@[simp] theorem liftE_apply {α : Type} (x : Except JsError α) (s : List Effect) :
    liftE x s = (x, s) := rfl

@[simp] theorem throwM_apply {α : Type} (e : JsError) (s : List Effect) :
    (throwM e : M α) s = (Except.error e, s) := rfl

@[simp] theorem tryCatchM_apply {α : Type} (m : M α) (h : JsError → M α) (s : List Effect) :
    tryCatchM m h s =
      match m s with
      | (Except.ok a, s2) => (Except.ok a, s2)
      | (Except.error e, s2) => h e s2 := rfl

/-- A `try/catch` whose handler only logs never lets an exception escape. -/
theorem tryCatch_log_ok (m : M Unit) (f : JsError → String) (s : List Effect) :
    (tryCatchM m (fun e => emit (Effect.log (f e))) s).1 = Except.ok () := by
  simp only [tryCatchM_apply]
  rcases h : m s with ⟨r, s2⟩
  cases r with
  | ok a => cases a; simp
  | error e => simp [emit]

/-- C9: for a visible asset, a container-probe failure makes the video job
abort with only the failure logged: the result is reported ok and the trace
holds no repository write (no upsert, no asset save), so the prior record is
untouched. -/
theorem probe_failure_aborts (env : Env) (asset : AssetEntity) (fileName : String)
    (e : JsError) (hvis : asset.isVisible = true) (hprobe : env.ffprobe = Except.error e) :
    runM (extractVideoMetadata env asset fileName) =
      (Except.ok (), [Effect.log ("Error in video metadata extraction " ++ e)]) := by
  simp [extractVideoMetadata, hvis, runM, extractVideoMetadataBody, hprobe, tryCatchM]

def envProbeFail : Env :=
  { isGeocodeInitialized := false
    exiftoolRead := Except.error "x"
    statSync := Except.error "x"
    sharpMetadata := Except.error "x"
    ffprobe := Except.error "boom"
    findLivePhotoMatch := fun _ _ _ => Except.ok none
    saveResult := fun _ => Except.ok ()
    upsertResult := fun _ => Except.ok ()
    updateResult := Except.ok ()
    geocoderLookup := Except.error "x"
    getName := fun _ => none }

def assetVideo1 : AssetEntity :=
  { id := "v0", originalPath := "/v0.mov", fileCreatedAt := "2020-01-01"
    fileModifiedAt := "2020-01-02", isVisible := true }

theorem probe_failure_aborts_witness :
    runM (extractVideoMetadata envProbeFail assetVideo1 "v0.mov") =
      (Except.ok (), [Effect.log "Error in video metadata extraction boom"]) :=
  probe_failure_aborts envProbeFail assetVideo1 "v0.mov" "boom" rfl rfl

/-- C3 (amended): the still-image and the video handlers swallow every
internal error (their whole bodies sit in a log-only `try/catch`), but the
standalone reverse-geocoding handler has no catch: a geocode-lookup failure
or a repository-update failure propagates to the dispatcher. -/
theorem handler_error_policy :
    (∀ (env : Env) (asset : AssetEntity) (fn : String),
      (runM (extractExifInfo env asset fn)).1 = Except.ok ())
    ∧ (∀ (env : Env) (asset : AssetEntity) (fn : String),
      (runM (extractVideoMetadata env asset fn)).1 = Except.ok ())
    ∧ (∀ (env : Env) (j : ReverseGeocodingJob) (e : JsError),
      env.isGeocodeInitialized = true → env.geocoderLookup = Except.error e →
      (runM (reverseGeocoding env j)).1 = Except.error e)
    ∧ (∀ (env : Env) (j : ReverseGeocodingJob) (g : GeoData) (e : JsError),
      env.isGeocodeInitialized = true → env.geocoderLookup = Except.ok g →
      env.updateResult = Except.error e →
      (runM (reverseGeocoding env j)).1 = Except.error e) := by
  refine ⟨?_, ?_, ?_, ?_⟩
  · intro env asset fn
    exact tryCatch_log_ok (extractExifInfoBody env asset fn) (fun e => "Error extracting EXIF " ++ e) []
  · intro env asset fn
    cases hv : asset.isVisible with
    | false => simp [extractVideoMetadata, hv, runM]
    | true =>
      simpa [extractVideoMetadata, hv, runM] using
        tryCatch_log_ok (extractVideoMetadataBody env asset fn)
          (fun e => "Error in video metadata extraction " ++ e) []
  · intro env j e hinit hlook
    simp [reverseGeocoding, hinit, runM, reverseGeocodeExifM, hlook]
  · intro env j g e hinit hlook hupd
    simp [reverseGeocoding, hinit, runM, reverseGeocodeExifM, hlook, doUpdate, hupd]

def envRGFail : Env :=
  { isGeocodeInitialized := true
    exiftoolRead := Except.error "x"
    statSync := Except.error "x"
    sharpMetadata := Except.error "x"
    ffprobe := Except.error "x"
    findLivePhotoMatch := fun _ _ _ => Except.ok none
    saveResult := fun _ => Except.ok ()
    upsertResult := fun _ => Except.ok ()
    updateResult := Except.error "dbdown"
    geocoderLookup := Except.ok { name := "Cupertino", countryCode := "US" }
    getName := fun _ => some "United States of America" }

/-- C3 counterexample: in the reverse-geocoding recompute handler, a
persistence failure is NOT caught — the handler's result is the propagating
exception, not a completed job. -/
theorem reverseGeocoding_error_escapes :
    (runM (reverseGeocoding envRGFail
        { assetId := "a1", latitude := 1, longitude := 2 })).1 = Except.error "dbdown"
    ∧ (runM (reverseGeocoding envRGFail
        { assetId := "a1", latitude := 1, longitude := 2 })).1 ≠ Except.ok () := by
  have h1 : (runM (reverseGeocoding envRGFail
      { assetId := "a1", latitude := 1, longitude := 2 })).1 = Except.error "dbdown" := rfl
  refine ⟨h1, ?_⟩
  rw [h1]
  simp

theorem handler_error_policy_witness :
    (runM (extractExifInfo envRGFail assetVideo1 "v0.mov")).1 = Except.ok ()
    ∧ (runM (reverseGeocoding envRGFail
        { assetId := "a2", latitude := 3, longitude := 4 })).1 = Except.error "dbdown" :=
  ⟨handler_error_policy.1 envRGFail assetVideo1 "v0.mov",
   handler_error_policy.2.2.2 envRGFail { assetId := "a2", latitude := 3, longitude := 4 }
     { name := "Cupertino", countryCode := "US" } "dbdown" rfl rfl rfl⟩

def photoAsset1 : AssetEntity :=
  { id := "p1", originalPath := "/p.jpg", fileCreatedAt := "2020-01-01"
    fileModifiedAt := "2020-01-01", isVisible := true }

/-- A visible video asset whose `livePhotoVideoId` is ALREADY set. -/
def videoAssetPaired : AssetEntity :=
  { id := "v1", originalPath := "/v.mov", fileCreatedAt := "2020-01-01"
    fileModifiedAt := "2020-01-01", isVisible := true, livePhotoVideoId := some "w9" }

def envPairing : Env :=
  { isGeocodeInitialized := false
    exiftoolRead := Except.ok { ContentIdentifier := some "X" }
    statSync := Except.ok 100
    sharpMetadata := Except.error "no"
    ffprobe := Except.ok { format := {} }
    findLivePhotoMatch := fun _ _ ty =>
      match ty with
      | AssetType.IMAGE => Except.ok (some photoAsset1)
      | AssetType.VIDEO => Except.ok none
    saveResult := fun _ => Except.ok ()
    upsertResult := fun _ => Except.ok ()
    updateResult := Except.ok ()
    geocoderLookup := Except.error "x"
    getName := fun _ => none }

/-- The effect trace of one full video-extraction run on `videoAssetPaired`. -/
def videoPairTrace : List Effect :=
  (runM (extractVideoMetadata envPairing videoAssetPaired "v.mov")).2

/-- C1 counterexample: on the video side, the live-pair search runs even
though the current asset's paired-id is already set (no idempotence guard),
and the writes are the mirror image of what the claim states: the MATCHED
image's paired-id is set to the current video and the CURRENT video is
hidden; the current video's paired-id is never written and the matched
image's visibility is never written. -/
theorem video_pairing_differs_from_claim :
    videoAssetPaired.livePhotoVideoId = some "w9"
    ∧ Effect.findLivePhoto "X" "v1" AssetType.IMAGE ∈ videoPairTrace
    ∧ Effect.saveAsset { id := "p1", livePhotoVideoId := some "v1" } ∈ videoPairTrace
    ∧ Effect.saveAsset { id := "v1", isVisible := some false } ∈ videoPairTrace
    ∧ videoPairTrace.filter (fun ef =>
        match ef with
        | Effect.saveAsset p => p.id == "v1" && p.livePhotoVideoId.isSome
        | _ => false) = []
    ∧ videoPairTrace.filter (fun ef =>
        match ef with
        | Effect.saveAsset p => p.id == "p1" && p.isVisible.isSome
        | _ => false) = [] := by
  refine ⟨rfl, ?_, ?_, ?_, rfl, rfl⟩ <;> decide

/-- C1 (amended): the still-image extractor performs the search only when a
content identifier is truthy AND its own paired-id is falsy, and then writes
its own paired-id and hides the match; the video extractor performs the
search whenever the content identifier is truthy (no paired-id guard) and
then writes the MATCHED image's paired-id and hides ITSELF. -/
theorem livePair_reconciler_behavior :
    (∀ (env : Env) (asset : AssetEntity) (cid : String) (m : AssetEntity),
      cid ≠ "" → jsTruthyOS asset.livePhotoVideoId = false →
      env.findLivePhotoMatch cid asset.id AssetType.VIDEO = Except.ok (some m) →
      env.saveResult { id := asset.id, livePhotoVideoId := some m.id } = Except.ok () →
      env.saveResult { id := m.id, isVisible := some false } = Except.ok () →
      runM (imagePairingStep env asset (some cid)) =
        (Except.ok (), [Effect.findLivePhoto cid asset.id AssetType.VIDEO,
          Effect.saveAsset { id := asset.id, livePhotoVideoId := some m.id },
          Effect.saveAsset { id := m.id, isVisible := some false }]))
    ∧ (∀ (env : Env) (asset : AssetEntity) (cid : Option String),
      jsTruthyOS asset.livePhotoVideoId = true →
      runM (imagePairingStep env asset cid) = (Except.ok (), []))
    ∧ (∀ (env : Env) (asset : AssetEntity) (cid : String) (p : AssetEntity),
      cid ≠ "" →
      env.findLivePhotoMatch cid asset.id AssetType.IMAGE = Except.ok (some p) →
      env.saveResult { id := p.id, livePhotoVideoId := some asset.id } = Except.ok () →
      env.saveResult { id := asset.id, isVisible := some false } = Except.ok () →
      runM (videoPairingStep env asset (some cid)) =
        (Except.ok (), [Effect.findLivePhoto cid asset.id AssetType.IMAGE,
          Effect.saveAsset { id := p.id, livePhotoVideoId := some asset.id },
          Effect.saveAsset { id := asset.id, isVisible := some false }])) := by
  refine ⟨?_, ?_, ?_⟩
  · intro env asset cid m hcid hguard hfind hs1 hs2
    have h1 : jsTruthyOS (some cid) = true := by simp [jsTruthyOS, hcid]
    simp [imagePairingStep, h1, hguard, runM, doFind, hfind, doSave, hs1, hs2]
  · intro env asset cid hguard
    simp [imagePairingStep, hguard, runM]
  · intro env asset cid p hcid hfind hs1 hs2
    have h1 : jsTruthyOS (some cid) = true := by simp [jsTruthyOS, hcid]
    simp [videoPairingStep, h1, runM, doFind, hfind, doSave, hs1, hs2]

theorem livePair_reconciler_behavior_witness :
    runM (videoPairingStep envPairing videoAssetPaired (some "X")) =
      (Except.ok (), [Effect.findLivePhoto "X" "v1" AssetType.IMAGE,
        Effect.saveAsset { id := "p1", livePhotoVideoId := some "v1" },
        Effect.saveAsset { id := "v1", isVisible := some false }]) :=
  livePair_reconciler_behavior.2.2 envPairing videoAssetPaired "X" photoAsset1
    (by decide) rfl rfl rfl

/-- The spec-side "copy when truthy, else null" rule for string fields
(`Modelled from the spec's amended wording` — compared against the record
the source builds). -/
def copyTruthyS : Option String → Option String
  | some s => if s = "" then none else some s
  | none => none

/-- The "copy when truthy, else null" rule for integer-number fields. -/
def copyTruthyI : Option Int → Option Int
  | some v => if v = 0 then none else some v
  | none => none

/-- The "copy when truthy, else null" rule for rational-number fields. -/
def copyTruthyQ : Option ℚ → Option ℚ
  | some v => if v = 0 then none else some v
  | none => none

theorem jsOrS_none_eq_copy (x : Option String) : jsOrS x none = copyTruthyS x := by
  cases x <;> rfl

theorem jsOrI_none_eq_copy (x : Option Int) : jsOrI x none = copyTruthyI x := by
  cases x <;> rfl

theorem jsOrQ_none_eq_copy (x : Option ℚ) : jsOrQ x none = copyTruthyQ x := by
  cases x with
  | none => rfl
  | some v => simp [jsOrQ, copyTruthyQ]

/-- C2 (amended): each scalar field is copied from its tag only when the tag
value is truthy (non-zero number, non-empty string); an absent tag OR a
present-but-falsy value (0, "") yields null. -/
theorem scalar_fields_copy_truthy (t : Option ImmichTags) (a : AssetEntity)
    (fn : String) (sz : Int) :
    (buildImageExif t a fn sz).make = copyTruthyS (t.bind ImmichTags.Make)
    ∧ (buildImageExif t a fn sz).model = copyTruthyS (t.bind ImmichTags.Model)
    ∧ (buildImageExif t a fn sz).exposureTime = copyTruthyS (t.bind ImmichTags.ExposureTime)
    ∧ (buildImageExif t a fn sz).lensModel = copyTruthyS (t.bind ImmichTags.LensModel)
    ∧ (buildImageExif t a fn sz).livePhotoCID = copyTruthyS (t.bind ImmichTags.MediaGroupUUID)
    ∧ (buildImageExif t a fn sz).fNumber = copyTruthyQ (t.bind ImmichTags.FNumber)
    ∧ (buildImageExif t a fn sz).iso = copyTruthyI (t.bind ImmichTags.ISO)
    ∧ (buildImageExif t a fn sz).latitude = copyTruthyQ (t.bind ImmichTags.GPSLatitude)
    ∧ (buildImageExif t a fn sz).longitude = copyTruthyQ (t.bind ImmichTags.GPSLongitude)
    ∧ (buildImageExif t a fn sz).orientation =
        copyTruthyS ((t.bind ImmichTags.Orientation).map (fun i => toString i)) := by
  refine ⟨?_, ?_, ?_, ?_, ?_, ?_, ?_, ?_, ?_, ?_⟩ <;>
    simp [buildImageExif, tagOrientation, jsOrS_none_eq_copy, jsOrI_none_eq_copy,
      jsOrQ_none_eq_copy]

def isoZeroTags : ImmichTags :=
  { Make := some "Canon", ISO := some 0, GPSLatitude := some 0, GPSLongitude := some 0 }

/-- C2 counterexample: ISO 0 and latitude/longitude 0 are present in the tag
bag but are written as null (the copies use JS `||`, for which 0 is falsy),
while the truthy `Make` is copied — contradicting "a present-but-zero value
is copied, not nulled". -/
theorem present_zero_values_nulled :
    isoZeroTags.ISO = some 0
    ∧ isoZeroTags.GPSLatitude = some 0
    ∧ isoZeroTags.GPSLongitude = some 0
    ∧ (buildImageExif (some isoZeroTags) photoAsset1 "p.jpg" 100).iso = none
    ∧ (buildImageExif (some isoZeroTags) photoAsset1 "p.jpg" 100).latitude = none
    ∧ (buildImageExif (some isoZeroTags) photoAsset1 "p.jpg" 100).longitude = none
    ∧ (buildImageExif (some isoZeroTags) photoAsset1 "p.jpg" 100).make = some "Canon" := by
  refine ⟨rfl, rfl, rfl, ?_, ?_, ?_, ?_⟩ <;> simp [buildImageExif, isoZeroTags, jsOrI, jsOrQ, jsOrS]

/-- C5: the resolved creation time is the first present value of
`DateTimeOriginal`, then `CreateDate`, then the asset's stored creation time
(converted to a date by `exifToDate`); the resolved modification time is the
first present value of `ModifyDate`, then the asset's stored modification
time; and these are exactly the dates written into the record. -/
theorem date_resolution_precedence (t : Option ImmichTags) (a : AssetEntity) :
    (∀ v, t.bind ImmichTags.DateTimeOriginal = some v →
      resolvedFileCreatedAt t a = exifToDate (some v))
    ∧ (t.bind ImmichTags.DateTimeOriginal = none →
      ∀ v, t.bind ImmichTags.CreateDate = some v →
      resolvedFileCreatedAt t a = exifToDate (some v))
    ∧ (t.bind ImmichTags.DateTimeOriginal = none → t.bind ImmichTags.CreateDate = none →
      resolvedFileCreatedAt t a = exifToDate (some (Sum.inl a.fileCreatedAt)))
    ∧ (∀ v, t.bind ImmichTags.ModifyDate = some v →
      resolvedFileModifiedAt t a = exifToDate (some v))
    ∧ (t.bind ImmichTags.ModifyDate = none →
      resolvedFileModifiedAt t a = exifToDate (some (Sum.inl a.fileModifiedAt)))
    ∧ (∀ fn sz, (buildImageExif t a fn sz).dateTimeOriginal = resolvedFileCreatedAt t a
      ∧ (buildImageExif t a fn sz).modifyDate = resolvedFileModifiedAt t a) := by
  refine ⟨?_, ?_, ?_, ?_, ?_, ?_⟩
  · intro v h
    simp [resolvedFileCreatedAt, createdDateCandidate, h, jsNullish]
  · intro h1 v h2
    simp [resolvedFileCreatedAt, createdDateCandidate, h1, h2, jsNullish]
  · intro h1 h2
    simp [resolvedFileCreatedAt, createdDateCandidate, h1, h2, jsNullish]
  · intro v h
    simp [resolvedFileModifiedAt, modifiedDateCandidate, h, jsNullish]
  · intro h
    simp [resolvedFileModifiedAt, modifiedDateCandidate, h, jsNullish]
  · intro fn sz
    exact ⟨rfl, rfl⟩

def createDateOnlyTags : ImmichTags := { CreateDate := some (Sum.inl "2019-05-05") }

theorem date_resolution_precedence_witness :
    resolvedFileCreatedAt (some createDateOnlyTags) photoAsset1 =
      exifToDate (some (Sum.inl "2019-05-05")) :=
  (date_resolution_precedence (some createDateOnlyTags) photoAsset1).2.1 rfl
    (Sum.inl "2019-05-05") rfl

/-- C8: for every non-negative duration, the formatter truncates the
fractional part and renders `H:MM:SS.000000`: hours unpadded, minutes and
seconds the modulo-60 components zero-padded to two digits (both always in
`[0, 60)`), with the fixed six-zero suffix; 3661 gives `1:01:01.000000` and
59 gives `0:00:59.000000`. -/
theorem duration_format :
    (∀ d : ℚ, 0 ≤ d → extractDuration d = specDurationFormat ⌊d⌋)
    ∧ extractDuration 3661 = "1:01:01.000000"
    ∧ extractDuration 59 = "0:00:59.000000"
    ∧ (∀ n : Int, 0 ≤ (n / 60) % 60 ∧ (n / 60) % 60 < 60 ∧ 0 ≤ n % 60 ∧ n % 60 < 60) := by
  have key : ∀ d : ℚ, 0 ≤ d → extractDuration d = specDurationFormat ⌊d⌋ := by
    intro d hd
    have h0 : jsTrunc d = ⌊d⌋ := if_pos hd
    rw [extractDuration, h0]
    simp only [extractDurationInt, specDurationFormat]
    have e1 : Int.fdiv ⌊d⌋ 3600 = ⌊d⌋ / 3600 := Int.fdiv_eq_ediv _ (by norm_num)
    rw [e1]
    have e2 : Int.fdiv (⌊d⌋ - ⌊d⌋ / 3600 * 3600) 60 = ⌊d⌋ / 60 % 60 := by
      rw [Int.fdiv_eq_ediv _ (by norm_num)]
      omega
    rw [e2]
    have e3 : ⌊d⌋ - ⌊d⌋ / 3600 * 3600 - ⌊d⌋ / 60 % 60 * 60 = ⌊d⌋ % 60 := by omega
    rw [e3]
  refine ⟨key, ?_, ?_, ?_⟩
  · have h : jsTrunc (3661 : ℚ) = 3661 := by
      unfold jsTrunc
      rw [if_pos (by norm_num)]
      norm_num
    rw [extractDuration, h]
    decide
  · have h : jsTrunc (59 : ℚ) = 59 := by
      unfold jsTrunc
      rw [if_pos (by norm_num)]
      norm_num
    rw [extractDuration, h]
    decide
  · intro n
    refine ⟨?_, ?_, ?_, ?_⟩ <;> omega

theorem duration_format_witness :
    extractDuration 3661 = specDurationFormat ⌊(3661 : ℚ)⌋ :=
  duration_format.1 3661 (by norm_num)

theorem jsOrI_some_cases (a b : Option Int) (v : Int) (h : jsOrI a b = some v) :
    v ≠ 0 ∨ b = some v := by
  cases a with
  | none => exact Or.inr h
  | some w =>
    by_cases hw : w = 0
    · simp [jsOrI, hw] at h
      exact Or.inr h
    · simp [jsOrI, hw] at h
      subst h
      exact Or.inl hw

theorem jsOrS_some_cases (a b : Option String) (s : String) (h : jsOrS a b = some s) :
    s ≠ "" ∨ b = some s := by
  cases a with
  | none => exact Or.inr h
  | some w =>
    by_cases hw : w = ""
    · simp [jsOrS, hw] at h
      exact Or.inr h
    · simp [jsOrS, hw] at h
      subst h
      exact Or.inl hw

/-- A tag-resolved height is never the falsy `0` (a zero tag is nulled by `||`). -/
theorem tagImageHeight_ne_zero (t : Option ImmichTags) (v : Int)
    (h : tagImageHeight t = some v) : v ≠ 0 := by
  unfold tagImageHeight at h
  rcases jsOrI_some_cases _ _ _ h with h1 | h1
  · exact h1
  · rcases jsOrI_some_cases _ _ _ h1 with h2 | h2
    · exact h2
    · exact Option.noConfusion h2

/-- A tag-resolved width is never the falsy `0`. -/
theorem tagImageWidth_ne_zero (t : Option ImmichTags) (v : Int)
    (h : tagImageWidth t = some v) : v ≠ 0 := by
  unfold tagImageWidth at h
  rcases jsOrI_some_cases _ _ _ h with h1 | h1
  · exact h1
  · rcases jsOrI_some_cases _ _ _ h1 with h2 | h2
    · exact h2
    · exact Option.noConfusion h2

/-- A tag-resolved orientation string is never the falsy `""`. -/
theorem tagOrientation_ne_empty (t : Option ImmichTags) (s : String)
    (h : tagOrientation t = some s) : s ≠ "" := by
  unfold tagOrientation at h
  rcases jsOrS_some_cases _ _ _ h with h1 | h1
  · exact h1
  · exact Option.noConfusion h1

/-- C4: starting from the tag-resolved dimension/orientation fields, the
raster decoder is never invoked when all three are non-null; when any is
null, the decoder is invoked exactly once and `sharpFill` overwrites only the
fields that are still null, never a tag-resolved value. -/
theorem sharp_fallback_policy (env : Env) (t : Option ImmichTags) (e : ExifEntity)
    (he : e.exifImageHeight = tagImageHeight t)
    (hw : e.exifImageWidth = tagImageWidth t)
    (ho : e.orientation = tagOrientation t) :
    (e.exifImageHeight ≠ none → e.exifImageWidth ≠ none → e.orientation ≠ none →
      runM (sharpFallbackStep env e) = (Except.ok e, []))
    ∧ (∀ meta, env.sharpMetadata = Except.ok meta →
      (e.exifImageHeight = none ∨ e.exifImageWidth = none ∨ e.orientation = none) →
      runM (sharpFallbackStep env e) = (Except.ok (sharpFill meta e), [Effect.sharpInvoked])
      ∧ (∀ v, e.exifImageHeight = some v → (sharpFill meta e).exifImageHeight = some v)
      ∧ (∀ v, e.exifImageWidth = some v → (sharpFill meta e).exifImageWidth = some v)
      ∧ (∀ s, e.orientation = some s → (sharpFill meta e).orientation = some s)
      ∧ (e.exifImageHeight = none → (sharpFill meta e).exifImageHeight = jsOrI meta.height none)
      ∧ (e.exifImageWidth = none → (sharpFill meta e).exifImageWidth = jsOrI meta.width none)
      ∧ (e.orientation = none → (sharpFill meta e).orientation =
          meta.orientation.map (fun n => toString n))) := by
  constructor
  · intro hh hww hoo
    obtain ⟨v1, hv1⟩ := Option.ne_none_iff_exists'.mp hh
    obtain ⟨v2, hv2⟩ := Option.ne_none_iff_exists'.mp hww
    obtain ⟨s3, hs3⟩ := Option.ne_none_iff_exists'.mp hoo
    have n1 : v1 ≠ 0 := tagImageHeight_ne_zero t v1 (he.symm.trans hv1)
    have n2 : v2 ≠ 0 := tagImageWidth_ne_zero t v2 (hw.symm.trans hv2)
    have n3 : s3 ≠ "" := tagOrientation_ne_empty t s3 (ho.symm.trans hs3)
    simp [sharpFallbackStep, hv1, hv2, hs3, jsTruthyOI, jsTruthyOS, n1, n2, n3, runM]
  · intro meta hmeta hmiss
    have hguard : (!jsTruthyOI e.exifImageHeight || !jsTruthyOI e.exifImageWidth
        || !jsTruthyOS e.orientation) = true := by
      rcases hmiss with h | h | h <;> simp [h, jsTruthyOI, jsTruthyOS]
    refine ⟨?_, ?_, ?_, ?_, ?_, ?_, ?_⟩
    · simp [sharpFallbackStep, hguard, runM, hmeta]
    · intro v hv
      have h1 : ¬ e.exifImageHeight = none := by simp [hv]
      by_cases h2 : e.exifImageWidth = none <;> by_cases h3 : e.orientation = none <;>
        simp [sharpFill, h1, h2, h3, hv]
    · intro v hv
      have h2 : ¬ e.exifImageWidth = none := by simp [hv]
      by_cases h1 : e.exifImageHeight = none <;> by_cases h3 : e.orientation = none <;>
        simp [sharpFill, h1, h2, h3, hv]
    · intro s hs
      have h3 : ¬ e.orientation = none := by simp [hs]
      by_cases h1 : e.exifImageHeight = none <;> by_cases h2 : e.exifImageWidth = none <;>
        simp [sharpFill, h1, h2, h3, hs]
    · intro h1
      by_cases h2 : e.exifImageWidth = none <;> by_cases h3 : e.orientation = none <;>
        simp [sharpFill, h1, h2, h3]
    · intro h2
      by_cases h1 : e.exifImageHeight = none <;> by_cases h3 : e.orientation = none <;>
        simp [sharpFill, h1, h2, h3]
    · intro h3
      by_cases h1 : e.exifImageHeight = none <;> by_cases h2 : e.exifImageWidth = none <;>
        simp [sharpFill, h1, h2, h3]

def fullDimTags : ImmichTags :=
  { ExifImageHeight := some 100, ExifImageWidth := some 200, Orientation := some 6 }

theorem sharp_fallback_policy_witness :
    runM (sharpFallbackStep envPairing (buildImageExif (some fullDimTags) photoAsset1 "p.jpg" 10)) =
      (Except.ok (buildImageExif (some fullDimTags) photoAsset1 "p.jpg" 10), []) :=
  (sharp_fallback_policy envPairing (some fullDimTags)
      (buildImageExif (some fullDimTags) photoAsset1 "p.jpg" 10) rfl rfl rfl).1
    (by decide) (by decide) (by decide)

/-- Evaluation scheme for `parseFloatCapture`: once the digit runs and their
values are computed (decidably), the result is the signed decimal value. -/
theorem parseFloatCapture_eval (s : String) (c : Char) (rest : List Char)
    (i f k : Nat)
    (hs : s.toList = c :: rest)
    (hi : digitsToNat (rest.takeWhile isDig) = i)
    (hf : digitsToNat (((rest.dropWhile isDig).drop 1).takeWhile isDig) = f)
    (hk : (((rest.dropWhile isDig).drop 1).takeWhile isDig).length = k) :
    parseFloatCapture s = (if c = '-' then -1 else 1) * ((i : ℚ) + (f : ℚ) / (10 ^ k : ℚ)) := by
  rw [parseFloatCapture, hs]
  simp only [hi, hf, hk]
  by_cases hc : c = '-' <;> simp [hc]

theorem pfc_lat : parseFloatCapture "+37.3349" = 37.3349 := by
  rw [parseFloatCapture_eval "+37.3349" '+' ['3', '7', '.', '3', '3', '4', '9'] 37 3349 4
    (by decide) (by decide) (by decide) (by decide)]
  rw [if_neg (by decide)]
  norm_num

theorem pfc_lon : parseFloatCapture "-122.0090" = -122.0090 := by
  rw [parseFloatCapture_eval "-122.0090" '-' ['1', '2', '2', '.', '0', '0', '9', '0'] 122 90 4
    (by decide) (by decide) (by decide) (by decide)]
  rw [if_pos (by decide)]
  norm_num

theorem pfc_alt : parseFloatCapture "+024.000" = 24 := by
  rw [parseFloatCapture_eval "+024.000" '+' ['0', '2', '4', '.', '0', '0', '0'] 24 0 3
    (by decide) (by decide) (by decide) (by decide)]
  rw [if_neg (by decide)]
  norm_num

/-- C6: Encoding A is applied only to a truthy generic `location` tag and
Encoding B only to a truthy Apple ISO6709 tag, with no cross-fallback;
`"+37.3349-122.0090/"` in the location tag yields lat 37.3349 / lon
−122.0090; the three-component ISO6709 text yields the same pair with the
altitude capture discarded; a wrong-component-count text yields no result for
its tag; and latitude and longitude are only ever written together. -/
theorem video_gps_parsing :
    (∀ (vt : VideoTags) (e : ExifEntity), jsTruthyOS vt.location = true →
      videoGpsStep (some vt) e = gpsApplyA (vt.location.getD "") e)
    ∧ (∀ (vt : VideoTags) (e : ExifEntity),
      jsTruthyOS vt.location = false → jsTruthyOS vt.appleLocationISO6709 = true →
      videoGpsStep (some vt) e = gpsApplyB (vt.appleLocationISO6709.getD "") e)
    ∧ (∀ (vt : Option VideoTags) (e : ExifEntity),
      jsTruthyOS (vt.bind VideoTags.location) = false →
      jsTruthyOS (vt.bind VideoTags.appleLocationISO6709) = false →
      videoGpsStep vt e = e)
    ∧ (videoGpsStep (some { location := some "+37.3349-122.0090/" }) {}).latitude = some 37.3349
    ∧ (videoGpsStep (some { location := some "+37.3349-122.0090/" }) {}).longitude =
        some (-122.0090)
    ∧ (videoGpsStep (some { appleLocationISO6709 := some "+37.3349-122.0090+024.000/" })
        {}).latitude = some 37.3349
    ∧ (videoGpsStep (some { appleLocationISO6709 := some "+37.3349-122.0090+024.000/" })
        {}).longitude = some (-122.0090)
    ∧ videoGpsStep (some { location := some "+37.3349/" }) {} = ({} : ExifEntity)
    ∧ videoGpsStep (some { appleLocationISO6709 := some "+37.3349-122.0090/" }) {} =
        ({} : ExifEntity)
    ∧ (∀ (vt : Option VideoTags) (e : ExifEntity), e.latitude = none → e.longitude = none →
      ((videoGpsStep vt e).latitude.isSome ↔ (videoGpsStep vt e).longitude.isSome)) := by
  refine ⟨?_, ?_, ?_, ?_, ?_, ?_, ?_, ?_, ?_, ?_⟩
  · intro vt e h
    simp [videoGpsStep, h]
  · intro vt e h1 h2
    simp [videoGpsStep, h1, h2]
  · intro vt e h1 h2
    simp [videoGpsStep, h1, h2]
  · have h : (videoGpsStep (some { location := some "+37.3349-122.0090/" }) {}).latitude =
        some (parseFloatCapture "+37.3349") := rfl
    rw [h, pfc_lat]
  · have h : (videoGpsStep (some { location := some "+37.3349-122.0090/" }) {}).longitude =
        some (parseFloatCapture "-122.0090") := rfl
    rw [h, pfc_lon]
  · have h : (videoGpsStep (some { appleLocationISO6709 := some "+37.3349-122.0090+024.000/" })
        {}).latitude = some (parseFloatCapture "+37.3349") := rfl
    rw [h, pfc_lat]
  · have h : (videoGpsStep (some { appleLocationISO6709 := some "+37.3349-122.0090+024.000/" })
        {}).longitude = some (parseFloatCapture "-122.0090") := rfl
    rw [h, pfc_lon]
  · rfl
  · rfl
  · intro vt e h1 h2
    by_cases ha : jsTruthyOS (vt.bind VideoTags.location) = true
    · simp only [videoGpsStep, ha, if_true]
      unfold gpsApplyA
      rcases hm : matchA ((vt.bind VideoTags.location).getD "").toList with _ | ⟨g1, g2⟩
      · simp [h1, h2]
      · simp
    · by_cases hb : jsTruthyOS (vt.bind VideoTags.appleLocationISO6709) = true
      · rw [videoGpsStep, if_neg (by simp [ha]), if_pos (by simp [hb])]
        unfold gpsApplyB
        rcases hm : matchB ((vt.bind VideoTags.appleLocationISO6709).getD "").toList
          with _ | ⟨g1, g2, g3⟩
        · simp [h1, h2]
        · simp
      · rw [videoGpsStep, if_neg (by simp [ha]), if_neg (by simp [hb])]
        simp [h1, h2]

theorem video_gps_parsing_witness :
    videoGpsStep (some { location := some "+37.3349-122.0090/" }) {} =
      gpsApplyA "+37.3349-122.0090/" ({} : ExifEntity) :=
  video_gps_parsing.1 { location := some "+37.3349-122.0090/" } {} (by decide)

/-- C10: both parses are anchored only at the end of the tag text.  A
`location` value with arbitrary leading characters still matches Encoding A,
and a three-component ISO6709 text stored in the generic `location` tag also
matches Encoding A — taking the LAST two signed decimals before the final
`/` as latitude and longitude (here −122.0090 and +024.000). -/
theorem location_regex_end_anchored :
    (videoGpsStep (some { location := some "garbage+37.3349-122.0090/" }) {}).latitude =
      some 37.3349
    ∧ (videoGpsStep (some { location := some "garbage+37.3349-122.0090/" }) {}).longitude =
      some (-122.0090)
    ∧ (videoGpsStep (some { location := some "+37.3349-122.0090+024.000/" }) {}).latitude =
      some (-122.0090)
    ∧ (videoGpsStep (some { location := some "+37.3349-122.0090+024.000/" }) {}).longitude =
      some 24 := by
  refine ⟨?_, ?_, ?_, ?_⟩
  · have h : (videoGpsStep (some { location := some "garbage+37.3349-122.0090/" }) {}).latitude =
        some (parseFloatCapture "+37.3349") := rfl
    rw [h, pfc_lat]
  · have h : (videoGpsStep (some { location := some "garbage+37.3349-122.0090/" }) {}).longitude =
        some (parseFloatCapture "-122.0090") := rfl
    rw [h, pfc_lon]
  · have h : (videoGpsStep (some { location := some "+37.3349-122.0090+024.000/" }) {}).latitude =
        some (parseFloatCapture "-122.0090") := rfl
    rw [h, pfc_lon]
  · have h : (videoGpsStep (some { location := some "+37.3349-122.0090+024.000/" }) {}).longitude =
        some (parseFloatCapture "+024.000") := rfl
    rw [h, pfc_alt]

/-- The fps assignment never touches width, height or orientation. -/
theorem setFps_preserves (e : ExifEntity) (r : Option String) :
    (setFps e r).exifImageWidth = e.exifImageWidth
    ∧ (setFps e r).exifImageHeight = e.exifImageHeight
    ∧ (setFps e r).orientation = e.orientation := by
  refine ⟨?_, ?_, ?_⟩ <;>
    (unfold setFps
     split
     · split
       · rfl
       · split <;> rfl
     · rfl)

/-- A stream whose type is not `"video"` changes nothing. -/
theorem processStream_skip (e : ExifEntity) (s : FfStream)
    (h : s.codec_type ≠ "video") : processStream e s = e := by
  simp [processStream, h]

theorem streamScan_skip (e : ExifEntity) (l : List FfStream)
    (h : ∀ s ∈ l, s.codec_type ≠ "video") : streamScan e l = e := by
  induction l with
  | nil => rfl
  | cons s t ih =>
    have h1 : processStream e s = e := processStream_skip e s (h s (by simp))
    have h2 : ∀ x ∈ t, x.codec_type ≠ "video" := fun x hx => h x (by simp [hx])
    calc streamScan e (s :: t) = streamScan (processStream e s) t := rfl
    _ = streamScan e t := by rw [h1]
    _ = e := ih h2

/-- A `"video"` stream overwrites width, height and orientation. -/
theorem processStream_video (e : ExifEntity) (v : FfStream) (h : v.codec_type = "video") :
    (processStream e v).exifImageWidth = jsOrI v.width none
    ∧ (processStream e v).exifImageHeight = jsOrI v.height none
    ∧ (processStream e v).orientation = rotationToOrientation v.rotation := by
  unfold processStream
  rw [if_pos h]
  exact ⟨(setFps_preserves _ _).1.trans rfl, (setFps_preserves _ _).2.1.trans rfl,
    (setFps_preserves _ _).2.2.trans rfl⟩

theorem jsParseInt_30000 : jsParseInt "30000".toList = JsNum.num 30000 := by
  have h : jsParseInt "30000".toList =
      JsNum.num ((1 : ℚ) * ((digitsToNat ['3', '0', '0', '0', '0'] : ℤ) : ℚ)) := rfl
  rw [h, show digitsToNat ['3', '0', '0', '0', '0'] = 30000 from by decide]
  norm_num

theorem jsParseInt_1001 : jsParseInt "1001".toList = JsNum.num 1001 := by
  have h : jsParseInt "1001".toList =
      JsNum.num ((1 : ℚ) * ((digitsToNat ['1', '0', '0', '1'] : ℤ) : ℚ)) := rfl
  rw [h, show digitsToNat ['1', '0', '0', '1'] = 1001 from by decide]
  norm_num

theorem jsParseInt_25 : jsParseInt "25".toList = JsNum.num 25 := by
  have h : jsParseInt "25".toList =
      JsNum.num ((1 : ℚ) * ((digitsToNat ['2', '5'] : ℤ) : ℚ)) := rfl
  rw [h, show digitsToNat ['2', '5'] = 25 from by decide]
  norm_num

theorem jsParseInt_1 : jsParseInt "1".toList = JsNum.num 1 := by
  have h : jsParseInt "1".toList =
      JsNum.num ((1 : ℚ) * ((digitsToNat ['1'] : ℤ) : ℚ)) := rfl
  rw [h, show digitsToNat ['1'] = 1 from by decide]
  norm_num

theorem fps_30000_1001 :
    jsMathRound (jsDiv (jsParseInt "30000".toList) (jsParseInt "1001".toList)) =
      JsNum.num 30 := by
  rw [jsParseInt_30000, jsParseInt_1001]
  rw [show jsDiv (JsNum.num 30000) (JsNum.num 1001) = JsNum.num (30000 / 1001 : ℚ) from by
    norm_num [jsDiv]]
  simp only [jsMathRound, JsNum.num.injEq]
  norm_num

theorem fps_25_1 :
    jsMathRound (jsDiv (jsParseInt "25".toList) (jsParseInt "1".toList)) = JsNum.num 25 := by
  rw [jsParseInt_25, jsParseInt_1]
  rw [show jsDiv (JsNum.num 25) (JsNum.num 1) = JsNum.num (25 / 1 : ℚ) from by
    norm_num [jsDiv]]
  simp only [jsMathRound, JsNum.num.injEq]
  norm_num

/-- C7: width, height and orientation come from the last `"video"` stream of
the list (orientation stringified when numeric, null when absent, via
`rotationToOrientation`); fps is set by splitting the rate string on `/`
into exactly two parts and rounding their parsed ratio: `30000/1001` gives
30, `25/1` gives 25, and a separator-free `30` leaves fps untouched. -/
theorem stream_scan_last_video :
    (∀ (e : ExifEntity) (l r : List FfStream) (v : FfStream),
      v.codec_type = "video" → (∀ s ∈ r, s.codec_type ≠ "video") →
      (streamScan e (l ++ v :: r)).exifImageWidth = jsOrI v.width none
      ∧ (streamScan e (l ++ v :: r)).exifImageHeight = jsOrI v.height none
      ∧ (streamScan e (l ++ v :: r)).orientation = rotationToOrientation v.rotation)
    ∧ (∀ e : ExifEntity,
      (processStream e { codec_type := "video", r_frame_rate := some "30000/1001" }).fps =
        some (JsNum.num 30))
    ∧ (∀ e : ExifEntity,
      (processStream e { codec_type := "video", r_frame_rate := some "25/1" }).fps =
        some (JsNum.num 25))
    ∧ (∀ e : ExifEntity,
      (processStream e { codec_type := "video", r_frame_rate := some "30" }).fps = e.fps)
    ∧ (∀ e : ExifEntity,
      (processStream e { codec_type := "video" }).fps = e.fps) := by
  refine ⟨?_, ?_, ?_, ?_, ?_⟩
  · intro e l r v hv hr
    have h1 : streamScan e (l ++ v :: r) = streamScan (processStream (streamScan e l) v) r := by
      simp [streamScan, List.foldl_append]
    rw [h1, streamScan_skip _ r hr]
    exact processStream_video _ v hv
  · intro e
    have h : (processStream e { codec_type := "video", r_frame_rate := some "30000/1001" }).fps =
        some (jsMathRound (jsDiv (jsParseInt "30000".toList) (jsParseInt "1001".toList))) := rfl
    rw [h, fps_30000_1001]
  · intro e
    have h : (processStream e { codec_type := "video", r_frame_rate := some "25/1" }).fps =
        some (jsMathRound (jsDiv (jsParseInt "25".toList) (jsParseInt "1".toList))) := rfl
    rw [h, fps_25_1]
  · intro e
    rfl
  · intro e
    rfl

def audioStream1 : FfStream := { codec_type := "audio" }

def videoStream1 : FfStream :=
  { codec_type := "video", width := some 1920, height := some 1080
    rotation := some (Sum.inr 90), r_frame_rate := some "30000/1001" }

theorem stream_scan_last_video_witness :
    (streamScan {} [audioStream1, videoStream1]).exifImageWidth = jsOrI (some 1920) none
    ∧ (streamScan {} [audioStream1, videoStream1]).exifImageHeight = jsOrI (some 1080) none
    ∧ (streamScan {} [audioStream1, videoStream1]).orientation =
        rotationToOrientation (some (Sum.inr 90)) :=
  stream_scan_last_video.1 {} [audioStream1] [] videoStream1 rfl (by simp)
